import Mathlib

/-!
Verification of the GLB model-viewer repository.

The repository contains four variants of the same Vue/Babylon.js glue code:

* `src/unnamed/part_000` — a standalone HTML page (`Part0` below): scene with a
  default environment (ground + skybox), `uploadModel`, `clearModels` and
  `calculateBoundingInfo`.
* `src/unnamed/part_001` — a `<babylon-viewer>`-based Vue component (`Part1`):
  `loadModelIntoViewer`, `clearModel`, `onModelChange`, `onModelError` and a
  template whose file input carries `:disabled="isLoading || !isViewerReady"`.
* `src/unnamed/part_002` — a Vue component using `@babylonjs/core` directly
  (`Part2`): `initializeBabylon`, `loadModel`, `handleFileSelected`,
  `disposeBabylon`, and a template that renders the Add-Model overlay (and its
  file input) only when `!hasModel && !isLoading`.
* `src/babylonjs-test/src/components/BabylonScene.vue` (`BScene`):
  `handleFileImport` (disposes `loadedModel`, reads the file, imports it) and
  `onBeforeUnmount` cleanup.

Numbers that the JS code manipulates with exact results (componentwise min,
max, sums, halving on bounding-box corners) are modelled as rationals `ℚ`;
the IEEE doubles `Infinity`, `-Infinity`, `Number.MAX_VALUE` and
`Number.MIN_VALUE` that appear as fold initialisers are modelled exactly
(`JVal` for the infinities, the exact rational values of the two extreme
finite doubles).  Asynchronous completions (FileReader results, import
promises, viewer events) are modelled as explicit outcome values passed to
the handler, so each handler is a total state-transition function; totality
of these functions is the embedding of "no exception escapes the handler".
-/

/-- One component of a JS string-inclusion test: `s.includes(pat)` holds iff
`pat` occurs contiguously inside `s`. -/
def strContains (s pat : String) : Bool :=
  decide (pat.toList <:+: s.toList)

/-- JS truthiness fallback `s || fb` for strings: the empty string is falsy. -/
def jsOr (s fb : String) : String :=
  if s = "" then fb else s

/-- World-space 3-vector with exact rational components. -/
structure Vec3 where
  x : ℚ
  y : ℚ
  z : ℚ
deriving DecidableEq, Repr

/-- Babylon `Vector3.Minimize`: componentwise minimum. -/
def vmin (a b : Vec3) : Vec3 :=
  ⟨min a.x b.x, min a.y b.y, min a.z b.z⟩

/-- Babylon `Vector3.Maximize`: componentwise maximum. -/
def vmax (a b : Vec3) : Vec3 :=
  ⟨max a.x b.x, max a.y b.y, max a.z b.z⟩

/-- Babylon `Vector3.Center(min, max)`: the componentwise midpoint. -/
def vcenter (a b : Vec3) : Vec3 :=
  ⟨(a.x + b.x) / 2, (a.y + b.y) / 2, (a.z + b.z) / 2⟩

/-- Babylon `max.subtract(min)`: componentwise difference. -/
def vsub (a b : Vec3) : Vec3 :=
  ⟨a.x - b.x, a.y - b.y, a.z - b.z⟩

/-- Componentwise order on vectors. -/
def vle (a b : Vec3) : Prop :=
  a.x ≤ b.x ∧ a.y ≤ b.y ∧ a.z ≤ b.z

namespace Part0

/-- Value of a JS number variable that is initialised to `±Infinity` and then
only ever combined, via `Math.min` / `Math.max`, with the finite coordinates
of mesh bounding boxes. -/
inductive JVal where
  | fin (q : ℚ)
  | posInf
  | negInf
deriving DecidableEq, Repr

/-- JS `Math.min(acc, q)` for a finite second argument `q`. -/
def jmin : JVal → ℚ → JVal
  | .posInf, q => .fin q
  | .negInf, _ => .negInf
  | .fin a, q => .fin (min a q)

/-- JS `Math.max(acc, q)` for a finite second argument `q`. -/
def jmax : JVal → ℚ → JVal
  | .negInf, q => .fin q
  | .posInf, _ => .posInf
  | .fin a, q => .fin (max a q)

/-- The data of one Babylon mesh that `part_000` inspects: its name, its
visibility flag, whether it exposes `getBoundingInfo`, and the world-space
corners `boundingBox.minimumWorld` / `boundingBox.maximumWorld`. -/
structure MeshInfo where
  name : String
  isVisible : Bool
  hasBoundingInfo : Bool
  minW : Vec3
  maxW : Vec3
deriving DecidableEq, Repr

/-- Filter applied inside the `meshes.forEach` loop of `calculateBoundingInfo`
(`part_000` line 191): `mesh.getBoundingInfo && mesh.isVisible &&
!mesh.name.includes("ground") && !mesh.name.includes("skybox")`. -/
def meshContributes (m : MeshInfo) : Bool :=
  m.hasBoundingInfo && m.isVisible &&
    !(strContains m.name "ground") && !(strContains m.name "skybox")

/-- The six accumulator variables `minX … maxZ` of `calculateBoundingInfo`. -/
structure BBAcc where
  minX : JVal
  minY : JVal
  minZ : JVal
  maxX : JVal
  maxY : JVal
  maxZ : JVal
deriving DecidableEq, Repr

/-- Initial accumulator: `minX = minY = minZ = Infinity`,
`maxX = maxY = maxZ = -Infinity` (`part_000` lines 187-188). -/
def bbInit : BBAcc :=
  ⟨.posInf, .posInf, .posInf, .negInf, .negInf, .negInf⟩

/-- Body of the `forEach` loop for a mesh that passes the filter
(`part_000` lines 192-204). -/
def bbUpdate (acc : BBAcc) (m : MeshInfo) : BBAcc :=
  { minX := jmin acc.minX m.minW.x
    minY := jmin acc.minY m.minW.y
    minZ := jmin acc.minZ m.minW.z
    maxX := jmax acc.maxX m.maxW.x
    maxY := jmax acc.maxY m.maxW.y
    maxZ := jmax acc.maxZ m.maxW.z }

/-- One iteration of the `forEach` loop, including the validity filter. -/
def bbStep (acc : BBAcc) (m : MeshInfo) : BBAcc :=
  if meshContributes m then bbUpdate acc m else acc

/-- The result record `{ center, radius }` of `calculateBoundingInfo`. -/
structure BoundingResult where
  center : Vec3
  radius : ℚ
deriving DecidableEq, Repr

/-- Embedding of `calculateBoundingInfo` (`part_000` lines 186-229):
fold the min/max update over all meshes, then either return the default
`{ center: (0,0,0), radius: 5 }` when no valid mesh was found (the JS code
detects this by `minX === Infinity`, which holds exactly when the
accumulators are still at their non-finite initial values), or return the
midpoint centre and half of the largest absolute axis extent. -/
def calculateBoundingInfo (meshes : List MeshInfo) : BoundingResult :=
  let acc := meshes.foldl bbStep bbInit
  match acc.minX, acc.minY, acc.minZ, acc.maxX, acc.maxY, acc.maxZ with
  | .fin nx, .fin ny, .fin nz, .fin xx, .fin xy, .fin xz =>
      { center := ⟨(nx + xx) / 2, (ny + xy) / 2, (nz + xz) / 2⟩
        radius := max |xx - nx| (max |xy - ny| |xz - nz|) / 2 }
  | _, _, _, _, _, _ => { center := ⟨0, 0, 0⟩, radius := 5 }

/-- Embedding of `clearModels` (`part_000` lines 175-183): every scene mesh
with `mesh.name !== "ground" && !mesh.name.includes("skybox")` is disposed;
the function returns the meshes that remain attached to the scene. -/
def clearModels (meshes : List MeshInfo) : List MeshInfo :=
  meshes.filter fun m => !(m.name != "ground" && !(strContains m.name "skybox"))

end Part0

namespace Part2

/-- Result of the auto-centre-and-frame block that both `loadModel`
(`part_002` lines 170-193) and `handleFileSelected` (lines 266-289) run on
the bounding boxes of the freshly imported meshes. -/
structure FrameResult where
  minV : Vec3
  maxV : Vec3
  center : Vec3
  extents : Vec3
  size : ℚ
  radius : ℚ
  lowerRadiusLimit : ℚ
  upperRadiusLimit : ℚ
deriving DecidableEq, Repr

/-- The framing fold of `part_002`: starting from the first mesh's world
bounds, combine the remaining bounds with `Vector3.Minimize` /
`Vector3.Maximize`; then `center = Vector3.Center(min, max)`,
`extents = max - min`, `size = Math.max(extents.x, extents.y, extents.z)`,
`radius = size * 1.5`, `camera.lowerRadiusLimit = size * 0.1`,
`camera.upperRadiusLimit = radius * 5`.  The `result.meshes.length > 0`
guard of the source is the `none` branch. -/
def frameMeshes (bounds : List (Vec3 × Vec3)) : Option FrameResult :=
  match bounds with
  | [] => none
  | b0 :: rest =>
    let mm := rest.foldl (fun (p : Vec3 × Vec3) b => (vmin p.1 b.1, vmax p.2 b.2)) b0
    let center := vcenter mm.1 mm.2
    let extents := vsub mm.2 mm.1
    let size := max extents.x (max extents.y extents.z)
    let radius := size * (3 / 2)
    some { minV := mm.1, maxV := mm.2, center := center, extents := extents
           size := size, radius := radius
           lowerRadiusLimit := size * (1 / 10), upperRadiusLimit := radius * 5 }

/-- Reactive and engine state of the `part_002` component.  `engineAlive`,
`sceneAlive`, `cameraAlive` model the module-level `engine`, `scene`,
`camera` variables being non-null; `sceneModelMeshes` is the list of model
geometry nodes currently attached to the scene (identified by opaque ids);
the remaining fields are the refs `isLoading`, `errorLoading`, `hasModel`
plus the resize-listener and render-loop status. -/
structure BVState where
  engineAlive : Bool
  sceneAlive : Bool
  cameraAlive : Bool
  resizeListener : Bool
  renderLoopRunning : Bool
  isLoading : Bool
  errorLoading : Option String
  hasModel : Bool
  sceneModelMeshes : List Nat
deriving DecidableEq, Repr

/-- State of the component before `onMounted` runs: no engine, no scene, no
meshes, no flags set. -/
def initialState : BVState :=
  { engineAlive := false, sceneAlive := false, cameraAlive := false
    resizeListener := false, renderLoopRunning := false
    isLoading := false, errorLoading := none, hasModel := false
    sceneModelMeshes := [] }

/-- Embedding of `disposeBabylon` (`part_002` lines 214-226): remove the
resize listener; if `engine` is non-null, stop the render loop, dispose the
scene (and with it every attached mesh) when it is non-null, dispose the
engine and null out `engine` and `camera`. -/
def disposeBabylon (s : BVState) : BVState :=
  let s1 := { s with resizeListener := false }
  if s1.engineAlive then
    let s2 := { s1 with renderLoopRunning := false }
    let s3 :=
      if s2.sceneAlive then
        { s2 with sceneAlive := false, sceneModelMeshes := [] }
      else s2
    { s3 with engineAlive := false, cameraAlive := false }
  else s1

/-- Outcome of the asynchronous body of `loadModel` (`part_002` lines
131-206), supplied to the handler: the URL was a blob URL (rejected with a
fixed message), the import promise rejected with message `m` (possibly
empty, in which case the source falls back to `'Unknown error occurred.'`),
or the import resolved and attached the meshes `meshes` to the scene. -/
inductive LoadOutcome where
  | blobUrl
  | importError (m : String)
  | importOk (meshes : List Nat)
deriving DecidableEq, Repr

/-- Embedding of `loadModel` (`part_002` lines 131-206).  Early return when
`scene` is null; otherwise set `isLoading`, clear `errorLoading`, and apply
the outcome; the `finally` block clears `isLoading` on every path. -/
def loadModel (s : BVState) (outcome : LoadOutcome) : BVState :=
  if !s.sceneAlive then s
  else
    let s1 := { s with isLoading := true, errorLoading := none }
    match outcome with
    | .blobUrl =>
        { s1 with errorLoading := some "Please use the Add Model button to load models."
                  isLoading := false }
    | .importError m =>
        { s1 with errorLoading := some (jsOr m "Unknown error occurred.")
                  isLoading := false }
    | .importOk meshes =>
        { s1 with sceneModelMeshes := s1.sceneModelMeshes ++ meshes
                  hasModel := true, isLoading := false }

/-- Outcome of the FileReader/import pipeline of `handleFileSelected`
(`part_002` lines 236-314): the reader errored, the reader produced no
content, the import promise rejected with message `m`, or the import
resolved and attached `meshes`. -/
inductive ReadOutcome where
  | readError
  | nullContent
  | importError (m : String)
  | importOk (meshes : List Nat)
deriving DecidableEq, Repr

/-- Embedding of `handleFileSelected` (`part_002` lines 236-314).  Early
return when no file was chosen or `scene` is null; otherwise set
`isLoading`, clear `errorLoading`, then apply the reader/import outcome,
with `isLoading` cleared on every path (`reader.onerror`, the null-content
early return, and the `finally` of the import `try`). -/
def handleFileSelected (s : BVState) (fileChosen : Bool) (outcome : ReadOutcome) : BVState :=
  if !fileChosen || !s.sceneAlive then s
  else
    let s1 := { s with isLoading := true, errorLoading := none }
    match outcome with
    | .readError =>
        { s1 with errorLoading := some "Error: Failed to read the file", isLoading := false }
    | .nullContent =>
        { s1 with errorLoading := some "Error: Could not read file", isLoading := false }
    | .importError m =>
        { s1 with errorLoading := some (jsOr m "Unknown error occurred.")
                  isLoading := false }
    | .importOk meshes =>
        { s1 with sceneModelMeshes := s1.sceneModelMeshes ++ meshes
                  hasModel := true, isLoading := false }

/-- Outcome of `initializeBabylon`'s `try` block (`part_002` lines 59-128):
the engine or scene constructor threw (with `engineCreated` recording
whether `engine` had already been assigned), or construction succeeded and —
when `props.modelUrl` is non-empty — `loadModel` ran with outcome `lo`. -/
inductive InitOutcome where
  | ctorFail (engineCreated : Bool) (m : String)
  | ok (lo : Option LoadOutcome)
deriving DecidableEq, Repr

/-- Embedding of `initializeBabylon` (`part_002` lines 59-128): early return
when the canvas ref is null; otherwise `disposeBabylon()`, set `isLoading`,
clear `errorLoading` and `hasModel`, then construct engine/scene/camera,
start the render loop, add the resize listener, and load `props.modelUrl`
when present; the `catch` stores the error message and the `finally` clears
`isLoading`. -/
def initializeBabylon (s : BVState) (canvasOk : Bool) (out : InitOutcome) : BVState :=
  if !canvasOk then s
  else
    let s1 := disposeBabylon s
    let s2 := { s1 with isLoading := true, errorLoading := none, hasModel := false }
    match out with
    | .ctorFail engineCreated m =>
        let s3 := if engineCreated then { s2 with engineAlive := true } else s2
        { s3 with errorLoading := some (jsOr m "Unknown error occurred.")
                  isLoading := false }
    | .ok lo =>
        let s3 := { s2 with engineAlive := true, sceneAlive := true, cameraAlive := true
                            renderLoopRunning := true, resizeListener := true }
        match lo with
        | none => { s3 with isLoading := false }
        | some l => { loadModel s3 l with isLoading := false }

/-- Events the running component can receive.  `fileSelected` corresponds to
a change event of the Add-Model file input; the template (`part_002` lines
6-15) renders that input only while `!hasModel && !isLoading`, so the event
is only deliverable under that guard. -/
inductive BVEvent where
  | mountOrUrlChange (canvasOk : Bool) (out : InitOutcome)
  | fileSelected (fileChosen : Bool) (out : ReadOutcome)
  | unmount
deriving DecidableEq, Repr

/-- One step of the `part_002` component: dispatch an event to its handler,
applying the template-level availability guard of the file input. -/
def step (s : BVState) : BVEvent → BVState
  | .mountOrUrlChange canvasOk out => initializeBabylon s canvasOk out
  | .fileSelected fileChosen out =>
      if !s.hasModel && !s.isLoading then handleFileSelected s fileChosen out else s
  | .unmount => disposeBabylon s

/-- Run of the component over a sequence of events. -/
def run (s : BVState) (events : List BVEvent) : BVState :=
  events.foldl step s

/-- Template condition of the Add-Model overlay (`part_002` line 6):
`v-if="!hasModel && !isLoading"`.  The file input lives inside this
overlay. -/
def addOverlayVisible (s : BVState) : Bool :=
  !s.hasModel && !s.isLoading

/-- Reachability invariant of the `part_002` component: the scene carries
model meshes only while `hasModel` is set, no meshes survive without a live
scene, and a live scene implies a live engine. -/
def Inv (s : BVState) : Prop :=
  (s.hasModel = false → s.sceneModelMeshes = []) ∧
  (s.sceneAlive = false → s.sceneModelMeshes = []) ∧
  (s.sceneAlive = true → s.engineAlive = true)

end Part2

namespace Part1

/-- Reactive state of the `part_001` `<babylon-viewer>` wrapper component:
the refs `isModelLoaded`, `isLoading`, `isViewerReady`, `loadError`, and
whether `viewerInstance` holds a viewer object. -/
structure GVState where
  isModelLoaded : Bool
  isLoading : Bool
  isViewerReady : Bool
  viewerInstance : Bool
  loadError : Option String
deriving DecidableEq, Repr

/-- Calls the component issues against the external viewer instance. -/
inductive ViewerCall where
  | loadModelFile
  | loadModelNull
deriving DecidableEq, Repr

/-- Template condition on the file input (`part_001` line 12):
`:disabled="isLoading || !isViewerReady"`. -/
def fileInputDisabled (s : GVState) : Bool :=
  s.isLoading || !s.isViewerReady

/-- Outcome of the awaited `viewerInstance.loadModel(file)` call inside
`loadModelIntoViewer`: the promise resolved (later `modelchange` /
`modelerror` events finish the state update), or it rejected with message
`m`. -/
inductive LoadCallOutcome where
  | resolved
  | rejected (m : String)
deriving DecidableEq, Repr

/-- Embedding of `loadModelIntoViewer` (`part_001` lines 99-120): when the
viewer is not ready or the instance is missing, set the not-ready error and
return without touching the viewer; otherwise set `isLoading`, clear
`loadError`, and call `loadModel`, the `catch` handling a rejection.  The
second component lists the calls made into the viewer. -/
def loadModelIntoViewer (s : GVState) (outcome : LoadCallOutcome) :
    GVState × List ViewerCall :=
  if !s.isViewerReady || !s.viewerInstance then
    ({ s with loadError := some "Viewer not ready. Cannot load model." }, [])
  else
    let s1 := { s with isLoading := true, loadError := none }
    match outcome with
    | .resolved => (s1, [.loadModelFile])
    | .rejected m =>
        ({ s1 with loadError := some (jsOr m "Error initiating model load.")
                   isLoading := false, isModelLoaded := false },
         [.loadModelFile])

/-- Embedding of the `modelchange` listener (`part_001` lines 64-75):
`event.detail` is the loaded source or null. -/
def onModelChange (s : GVState) (detail : Option String) : GVState :=
  let s1 := { s with isLoading := false }
  match detail with
  | some _ => { s1 with isModelLoaded := true, loadError := none }
  | none => { s1 with isModelLoaded := false }

/-- Embedding of the `modelerror` listener (`part_001` lines 77-82):
`loadError` becomes `event.message || (event.error ? event.error.toString()
: "Unknown model loading error.")`, with `message` falsy exactly when it is
the empty string and `errStr` the stringified `event.error` when that is
truthy. -/
def onModelError (s : GVState) (message : String) (errStr : Option String) : GVState :=
  { s with isLoading := false, isModelLoaded := false
           loadError := some (jsOr message
             (match errStr with | some e => e | none => "Unknown model loading error.")) }

/-- Outcome of the awaited `viewerInstance.loadModel(null)` call inside
`clearModel`: the instance has no `loadModel` function, or the call resolved
(`none`) or rejected (`some m`). -/
inductive ClearOutcome where
  | noLoadFn
  | call (err : Option String)
deriving DecidableEq, Repr

/-- Embedding of `clearModel` (`part_001` lines 123-152): silent early
return when the viewer is not ready; otherwise set `isLoading`, clear
`loadError`, and either warn when `loadModel` is missing, or call
`loadModel(null)` and reset the flags, the `catch` storing the fixed
failure message. -/
def clearModel (s : GVState) (outcome : ClearOutcome) : GVState × List ViewerCall :=
  if !s.isViewerReady || !s.viewerInstance then (s, [])
  else
    let s1 := { s with isLoading := true, loadError := none }
    match outcome with
    | .noLoadFn => ({ s1 with isLoading := false }, [])
    | .call none =>
        ({ s1 with isModelLoaded := false, isLoading := false }, [.loadModelNull])
    | .call (some _) =>
        ({ s1 with loadError := some "Failed to clear model."
                   isLoading := false, isModelLoaded := false },
         [.loadModelNull])

end Part1

namespace BScene

/-- State of the `BabylonScene.vue` component: whether `initScene` has run
(`scene` non-null), the `loadingStatus` ref, the module-level `loadedModel`
array, the model meshes currently attached to the scene, and the queue of
in-flight `ImportMesh` callbacks (the component never disables its file
input, so several imports can be pending at once). -/
structure BSState where
  sceneInit : Bool
  loadingStatus : String
  loadedModel : List Nat
  sceneModelMeshes : List Nat
  pending : List (List Nat)
deriving DecidableEq, Repr

/-- State right after `initScene` has completed. -/
def readyState : BSState :=
  { sceneInit := true, loadingStatus := "", loadedModel := []
    sceneModelMeshes := [], pending := [] }

/-- Outcome of the synchronous part of `handleFileImport` after the previous
model has been disposed: the FileReader errored, it produced no content, the
`ImportMesh` call threw synchronously with message `m`, or the import
started and will later deliver `meshes` to its success callback. -/
inductive FileReadOutcome where
  | readFail
  | nullContent
  | importThrew (m : String)
  | started (meshes : List Nat)
deriving DecidableEq, Repr

/-- Embedding of `handleFileImport` (`BabylonScene.vue` lines 144-303) up to
the point where the asynchronous import is in flight: early return when no
file was chosen or `scene` is null; otherwise set the loading status,
dispose every mesh recorded in `loadedModel` and reset it to `[]`, then read
the file; read errors, null content and synchronous exceptions set the
corresponding status, a started import joins the pending queue. -/
def handleFileImport (s : BSState) (fileChosen : Bool) (name : String)
    (outcome : FileReadOutcome) : BSState :=
  if !fileChosen || !s.sceneInit then s
  else
    let s1 := { s with
      loadingStatus := "Loading " ++ name ++ "..."
      sceneModelMeshes := s.sceneModelMeshes.filter fun i => !(s.loadedModel.contains i)
      loadedModel := [] }
    match outcome with
    | .readFail => { s1 with loadingStatus := "Error: Failed to read the file" }
    | .nullContent => { s1 with loadingStatus := "Error: Could not read file" }
    | .importThrew m => { s1 with loadingStatus := "Exception: " ++ m }
    | .started meshes => { s1 with pending := s1.pending ++ [meshes] }

/-- Embedding of the `ImportMesh` success callback (`BabylonScene.vue` lines
187-272) for the oldest in-flight import: the loader has attached the meshes
to the scene, `loadedModel` is overwritten with them, and the status becomes
the success message, or the zero-mesh warning when nothing was loaded. -/
def importDone (s : BSState) : BSState :=
  match s.pending with
  | [] => s
  | meshes :: rest =>
      { s with pending := rest
               sceneModelMeshes := s.sceneModelMeshes ++ meshes
               loadedModel := meshes
               loadingStatus :=
                 if meshes = [] then "Warning: No meshes were loaded"
                 else "Model loaded successfully" }

/-- Embedding of the `ImportMesh` error callback (`BabylonScene.vue` lines
281-285) for the oldest in-flight import: nothing is attached and the status
becomes the error message. -/
def importFail (s : BSState) (m : String) : BSState :=
  match s.pending with
  | [] => s
  | _ :: rest => { s with pending := rest, loadingStatus := "Error: " ++ m }

/-- Events of the `BabylonScene.vue` component relevant to loading. -/
inductive BSEvent where
  | select (fileChosen : Bool) (name : String) (outcome : FileReadOutcome)
  | done
  | fail (m : String)
deriving DecidableEq, Repr

/-- One step of the `BabylonScene.vue` component. -/
def step (s : BSState) : BSEvent → BSState
  | .select fileChosen name outcome => handleFileImport s fileChosen name outcome
  | .done => importDone s
  | .fail m => importFail s m

/-- Run over a sequence of events. -/
def run (s : BSState) (events : List BSEvent) : BSState :=
  events.foldl step s

/-- A load performed sequentially: the selection event followed immediately
by its own import completion, no other load in flight. -/
def sequentialLoad (s : BSState) (name : String) (meshes : List Nat) : BSState :=
  importDone (handleFileImport s true name (.started meshes))

/-- Sequential-state invariant of `BabylonScene.vue`: no import in flight
and the attached model meshes are exactly those recorded in
`loadedModel`. -/
def SeqInv (s : BSState) : Prop :=
  s.pending = [] ∧ s.sceneModelMeshes = s.loadedModel

/-- Embedding of the `onBeforeUnmount` cleanup (`BabylonScene.vue` lines
333-361): dispose every loaded mesh, dispose the scene (detaching all
meshes) and the engine, remove the listeners; each step is guarded by a
null check, and disposing an already-disposed Babylon object is a no-op. -/
def unmountCleanup (s : BSState) : BSState :=
  { s with sceneModelMeshes := [], sceneInit := false, pending := s.pending }

/-- Constants used by the `BabylonScene.vue` bounding fold (`lines 218-219`):
the exact rational values of the IEEE doubles `Number.MAX_VALUE` and
`Number.MIN_VALUE` (the latter is the smallest positive subnormal, not the
most negative finite double). -/
def jsMaxValue : ℚ := (2 ^ 53 - 1) * 2 ^ 971

/-- Exact value of `Number.MIN_VALUE`: `2 ^ (-1074)`, a positive number. -/
def jsMinValue : ℚ := 1 / 2 ^ 1074

/-- The bounding fold of `handleFileImport` (`BabylonScene.vue` lines
216-231): `min` starts at `(MAX_VALUE, MAX_VALUE, MAX_VALUE)`, `max` starts
at `(MIN_VALUE, MIN_VALUE, MIN_VALUE)`, and each mesh bounding box is folded
in with `Vector3.Minimize` / `Vector3.Maximize`. -/
def unionBounds (bounds : List (Vec3 × Vec3)) : Vec3 × Vec3 :=
  bounds.foldl (fun (p : Vec3 × Vec3) b => (vmin p.1 b.1, vmax p.2 b.2))
    (⟨jsMaxValue, jsMaxValue, jsMaxValue⟩, ⟨jsMinValue, jsMinValue, jsMinValue⟩)

/-- The centre computed by `handleFileImport` (`BabylonScene.vue` line 234):
`Vector3.Center(min, max)` over the fold above. -/
def importCenter (bounds : List (Vec3 × Vec3)) : Vec3 :=
  vcenter (unionBounds bounds).1 (unionBounds bounds).2

end BScene

section FoldLemmas

variable {α : Type}

lemma foldl_min_le_init (l : List α) (f : α → ℚ) (a : ℚ) :
    l.foldl (fun q m => min q (f m)) a ≤ a := by
  induction l generalizing a with
  | nil => exact le_refl a
  | cons b t ih =>
      exact le_trans (ih (min a (f b))) (min_le_left _ _)

lemma foldl_min_le_mem (l : List α) (f : α → ℚ) (a : ℚ) {b : α} (hb : b ∈ l) :
    l.foldl (fun q m => min q (f m)) a ≤ f b := by
  induction l generalizing a with
  | nil => cases hb
  | cons c t ih =>
      rcases List.mem_cons.mp hb with h | h
      · subst h
        exact le_trans (foldl_min_le_init t f (min a (f b))) (min_le_right _ _)
      · exact ih (min a (f c)) h

lemma le_foldl_min (l : List α) (f : α → ℚ) (a c : ℚ) (h1 : c ≤ a)
    (h2 : ∀ b ∈ l, c ≤ f b) : c ≤ l.foldl (fun q m => min q (f m)) a := by
  induction l generalizing a with
  | nil => exact h1
  | cons b t ih =>
      exact ih (min a (f b)) (le_min h1 (h2 b (List.mem_cons_self b t)))
        (fun d hd => h2 d (List.mem_cons_of_mem b hd))

lemma init_le_foldl_max (l : List α) (f : α → ℚ) (a : ℚ) :
    a ≤ l.foldl (fun q m => max q (f m)) a := by
  induction l generalizing a with
  | nil => exact le_refl a
  | cons b t ih =>
      exact le_trans (le_max_left _ _) (ih (max a (f b)))

lemma mem_le_foldl_max (l : List α) (f : α → ℚ) (a : ℚ) {b : α} (hb : b ∈ l) :
    f b ≤ l.foldl (fun q m => max q (f m)) a := by
  induction l generalizing a with
  | nil => cases hb
  | cons c t ih =>
      rcases List.mem_cons.mp hb with h | h
      · subst h
        exact le_trans (le_max_right _ _) (init_le_foldl_max t f (max a (f b)))
      · exact ih (max a (f c)) h

lemma foldl_max_le (l : List α) (f : α → ℚ) (a c : ℚ) (h1 : a ≤ c)
    (h2 : ∀ b ∈ l, f b ≤ c) : l.foldl (fun q m => max q (f m)) a ≤ c := by
  induction l generalizing a with
  | nil => exact h1
  | cons b t ih =>
      exact ih (max a (f b)) (max_le h1 (h2 b (List.mem_cons_self b t)))
        (fun d hd => h2 d (List.mem_cons_of_mem b hd))

/-- Componentwise description of the `Vector3.Minimize` / `Vector3.Maximize`
pair fold used by `part_002` and `BabylonScene.vue`. -/
lemma vfold_eq (l : List (Vec3 × Vec3)) (p0 : Vec3 × Vec3) :
    l.foldl (fun (p : Vec3 × Vec3) b => (vmin p.1 b.1, vmax p.2 b.2)) p0 =
      (⟨l.foldl (fun q b => min q b.1.x) p0.1.x,
        l.foldl (fun q b => min q b.1.y) p0.1.y,
        l.foldl (fun q b => min q b.1.z) p0.1.z⟩,
       ⟨l.foldl (fun q b => max q b.2.x) p0.2.x,
        l.foldl (fun q b => max q b.2.y) p0.2.y,
        l.foldl (fun q b => max q b.2.z) p0.2.z⟩) := by
  induction l generalizing p0 with
  | nil => simp [List.foldl]
  | cons b t ih =>
      simp only [List.foldl_cons]
      rw [ih]
      simp [vmin, vmax]

end FoldLemmas

namespace Part0

lemma foldl_jmin_fin {α : Type} (l : List α) (f : α → ℚ) (a : ℚ) :
    l.foldl (fun j m => jmin j (f m)) (.fin a) =
      .fin (l.foldl (fun q m => min q (f m)) a) := by
  induction l generalizing a with
  | nil => rfl
  | cons b t ih =>
      simp only [List.foldl_cons, jmin]
      exact ih (min a (f b))

lemma foldl_jmax_fin {α : Type} (l : List α) (f : α → ℚ) (a : ℚ) :
    l.foldl (fun j m => jmax j (f m)) (.fin a) =
      .fin (l.foldl (fun q m => max q (f m)) a) := by
  induction l generalizing a with
  | nil => rfl
  | cons b t ih =>
      simp only [List.foldl_cons, jmax]
      exact ih (max a (f b))

/-- Folding `bbStep` over a mesh list equals folding the unconditional
update over the meshes that pass the validity filter. -/
lemma foldl_bbStep_eq (l : List MeshInfo) (acc : BBAcc) :
    l.foldl bbStep acc = (l.filter meshContributes).foldl bbUpdate acc := by
  induction l generalizing acc with
  | nil => rfl
  | cons m t ih =>
      by_cases h : meshContributes m = true
      · simp [List.foldl_cons, bbStep, h, List.filter_cons, ih]
      · simp only [Bool.not_eq_true] at h
        simp [List.foldl_cons, bbStep, h, List.filter_cons, ih]

/-- Componentwise description of the `bbUpdate` fold. -/
lemma foldl_bbUpdate_eq (l : List MeshInfo) (acc : BBAcc) :
    l.foldl bbUpdate acc =
      { minX := l.foldl (fun j m => jmin j m.minW.x) acc.minX
        minY := l.foldl (fun j m => jmin j m.minW.y) acc.minY
        minZ := l.foldl (fun j m => jmin j m.minW.z) acc.minZ
        maxX := l.foldl (fun j m => jmax j m.maxW.x) acc.maxX
        maxY := l.foldl (fun j m => jmax j m.maxW.y) acc.maxY
        maxZ := l.foldl (fun j m => jmax j m.maxW.z) acc.maxZ } := by
  induction l generalizing acc with
  | nil => rfl
  | cons m t ih =>
      simp only [List.foldl_cons]
      rw [ih]
      rfl

/-- When no mesh passes the filter, `calculateBoundingInfo` returns the
documented default. -/
lemma calculateBoundingInfo_of_no_valid (meshes : List MeshInfo)
    (h : meshes.filter meshContributes = []) :
    calculateBoundingInfo meshes = { center := ⟨0, 0, 0⟩, radius := 5 } := by
  unfold calculateBoundingInfo
  rw [foldl_bbStep_eq, h]
  rfl

/-- When at least one mesh passes the filter, `calculateBoundingInfo`
returns the midpoint centre and half the largest absolute extent of the
componentwise min/max over the contributing meshes. -/
lemma calculateBoundingInfo_of_valid (meshes : List MeshInfo) (v : MeshInfo)
    (rest : List MeshInfo) (h : meshes.filter meshContributes = v :: rest) :
    calculateBoundingInfo meshes =
      { center := ⟨(rest.foldl (fun q m => min q m.minW.x) v.minW.x +
                    rest.foldl (fun q m => max q m.maxW.x) v.maxW.x) / 2,
                   (rest.foldl (fun q m => min q m.minW.y) v.minW.y +
                    rest.foldl (fun q m => max q m.maxW.y) v.maxW.y) / 2,
                   (rest.foldl (fun q m => min q m.minW.z) v.minW.z +
                    rest.foldl (fun q m => max q m.maxW.z) v.maxW.z) / 2⟩
        radius :=
          max |rest.foldl (fun q m => max q m.maxW.x) v.maxW.x -
               rest.foldl (fun q m => min q m.minW.x) v.minW.x|
            (max |rest.foldl (fun q m => max q m.maxW.y) v.maxW.y -
                  rest.foldl (fun q m => min q m.minW.y) v.minW.y|
                 |rest.foldl (fun q m => max q m.maxW.z) v.maxW.z -
                  rest.foldl (fun q m => min q m.minW.z) v.minW.z|) / 2 } := by
  unfold calculateBoundingInfo
  rw [foldl_bbStep_eq, h]
  simp only [List.foldl_cons]
  have hupd : bbUpdate bbInit v =
      { minX := .fin v.minW.x, minY := .fin v.minW.y, minZ := .fin v.minW.z
        maxX := .fin v.maxW.x, maxY := .fin v.maxW.y, maxZ := .fin v.maxW.z } := rfl
  rw [hupd, foldl_bbUpdate_eq]
  simp only [foldl_jmin_fin, foldl_jmax_fin]

end Part0

namespace Part2

lemma inv_initialState : Inv initialState := by
  refine ⟨fun _ => rfl, fun _ => rfl, fun h => ?_⟩
  simp [initialState] at h

lemma inv_disposeBabylon (s : BVState) (h : Inv s) : Inv (disposeBabylon s) := by
  obtain ⟨ea, sa, ca, rl, rlr, il, el, hm, mm⟩ := s
  obtain ⟨h1, h2, h3⟩ := h
  cases ea <;> cases sa <;> cases hm <;>
    simp_all [disposeBabylon, Inv]

lemma disposeBabylon_meshes (s : BVState) (h : Inv s) :
    (disposeBabylon s).sceneModelMeshes = [] ∧ (disposeBabylon s).sceneAlive = false := by
  obtain ⟨ea, sa, ca, rl, rlr, il, el, hm, mm⟩ := s
  obtain ⟨h1, h2, h3⟩ := h
  cases ea <;> cases sa <;> cases hm <;>
    simp_all [disposeBabylon, Inv]

lemma inv_initializeBabylon (s : BVState) (c : Bool) (out : InitOutcome) (h : Inv s) :
    Inv (initializeBabylon s c out) := by
  cases c with
  | false => exact h
  | true =>
      obtain hd := disposeBabylon_meshes s h
      cases out with
      | ctorFail ec m =>
          refine ⟨fun _ => ?_, fun _ => ?_, fun hsc => ?_⟩ <;>
            cases ec <;>
              simp_all [initializeBabylon, jsOr]
      | ok lo =>
          rcases lo with _ | l
          · refine ⟨fun _ => ?_, fun h' => ?_, fun _ => ?_⟩ <;>
              simp_all [initializeBabylon]
          · cases l with
            | blobUrl =>
                refine ⟨fun _ => ?_, fun h' => ?_, fun _ => ?_⟩ <;>
                  simp_all [initializeBabylon, loadModel]
            | importError m =>
                refine ⟨fun _ => ?_, fun h' => ?_, fun _ => ?_⟩ <;>
                  simp_all [initializeBabylon, loadModel, jsOr]
            | importOk meshes =>
                refine ⟨fun h' => ?_, fun h' => ?_, fun _ => ?_⟩ <;>
                  simp_all [initializeBabylon, loadModel]

lemma inv_handleFileSelected_guarded (s : BVState) (fc : Bool) (out : ReadOutcome)
    (h : Inv s) :
    Inv (if !s.hasModel && !s.isLoading then handleFileSelected s fc out else s) := by
  obtain ⟨ea, sa, ca, rl, rlr, il, el, hm, mm⟩ := s
  obtain ⟨h1, h2, h3⟩ := h
  cases hm
  · cases il
    · cases fc
      · exact ⟨h1, h2, h3⟩
      · cases sa
        · exact ⟨h1, h2, h3⟩
        · cases out <;> simp_all [handleFileSelected, Inv, jsOr]
    · exact ⟨h1, h2, h3⟩
  · exact ⟨h1, h2, h3⟩

lemma inv_step (s : BVState) (e : BVEvent) (h : Inv s) : Inv (step s e) := by
  cases e with
  | mountOrUrlChange c out => exact inv_initializeBabylon s c out h
  | fileSelected fc out => exact inv_handleFileSelected_guarded s fc out h
  | unmount => exact inv_disposeBabylon s h

lemma inv_run (s : BVState) (events : List BVEvent) (h : Inv s) :
    Inv (run s events) := by
  induction events generalizing s with
  | nil => exact h
  | cons e t ih => exact ih (step s e) (inv_step s e h)

/-- A guarded file-selection whose import succeeds leaves exactly the new
meshes attached. -/
lemma fileSelected_importOk (s : BVState) (M : List Nat) (h : Inv s)
    (hhm : s.hasModel = false) (hil : s.isLoading = false) (hsa : s.sceneAlive = true) :
    (step s (.fileSelected true (.importOk M))).sceneModelMeshes = M ∧
      (step s (.fileSelected true (.importOk M))).hasModel = true := by
  obtain ⟨h1, h2, h3⟩ := h
  have hmm : s.sceneModelMeshes = [] := h1 hhm
  simp [step, hhm, hil, handleFileSelected, hsa, hmm]

end Part2

namespace BScene

lemma filter_not_contains_self (l : List Nat) :
    (l.filter fun i => !(l.contains i)) = [] := by
  refine List.filter_eq_nil_iff.mpr ?_
  intro a ha
  simp [List.elem_iff, ha]

/-- A sequential load from a state satisfying the sequential invariant
attaches exactly the new meshes. -/
lemma sequentialLoad_exact (s : BSState) (name : String) (M : List Nat)
    (h : SeqInv s) (hsi : s.sceneInit = true) :
    (sequentialLoad s name M).sceneModelMeshes = M ∧
      (sequentialLoad s name M).loadedModel = M ∧
      SeqInv (sequentialLoad s name M) := by
  obtain ⟨hp, hmm⟩ := h
  have hdisp : (s.sceneModelMeshes.filter fun i => !(s.loadedModel.contains i)) = [] := by
    rw [hmm]
    exact filter_not_contains_self _
  simp [sequentialLoad, handleFileImport, hsi, hdisp, hp, hmm, importDone, SeqInv]

end BScene

lemma prepended_ne_empty (p m : String) (hp : p.length ≠ 0) : p ++ m ≠ "" := by
  intro h
  have h2 := congrArg String.length h
  simp [String.length_append] at h2
  exact hp h2.1

/-- Claim C3: for an empty mesh sequence, or one in which no mesh passes the
validity filter of `calculateBoundingInfo` (exposes `getBoundingInfo`, is
visible, and has a name free of "ground"/"skybox"), the framing computation
returns the fixed default result: centre at the origin and the fallback
radius 5.  In this embedding the result is a pair of exact rationals by
construction — the default branch is taken precisely when the `±Infinity`
initial accumulators were never replaced by a finite coordinate, which is
the code's `minX === Infinity` guard — so no NaN or infinite component can
reach a caller. -/
theorem framing_default_on_empty_or_invalid (meshes : List Part0.MeshInfo)
    (h : ∀ m ∈ meshes, Part0.meshContributes m = false) :
    Part0.calculateBoundingInfo meshes = { center := ⟨0, 0, 0⟩, radius := 5 } := by
  apply Part0.calculateBoundingInfo_of_no_valid
  exact List.filter_eq_nil_iff.mpr (fun m hm => by simp [h m hm])

/-- Witness for C3: a singleton list whose only mesh is skybox-named, hence
excluded, yields the default framing result. -/
theorem framing_default_on_empty_or_invalid_witness :
    Part0.calculateBoundingInfo
      [{ name := "skybox0", isVisible := true, hasBoundingInfo := true
         minW := ⟨1, 1, 1⟩, maxW := ⟨2, 2, 2⟩ }] =
      { center := ⟨0, 0, 0⟩, radius := 5 } :=
  framing_default_on_empty_or_invalid _ (by
    intro m hm
    rcases List.mem_singleton.mp hm with rfl
    decide)

/-- Claim C9: teardown is idempotent and safe under partial initialisation.
`disposeBabylon` of `part_002` applied twice equals it applied once, for
every state — including states where only some of engine/scene/camera were
ever created; applied to the fresh component state (nothing created, all
handles null) it performs no operation at all; and the `onBeforeUnmount`
cleanup of `BabylonScene.vue`, whose every step is guarded by a null check,
is likewise idempotent. -/
theorem teardown_idempotent :
    (∀ s : Part2.BVState,
       Part2.disposeBabylon (Part2.disposeBabylon s) = Part2.disposeBabylon s) ∧
    Part2.disposeBabylon Part2.initialState = Part2.initialState ∧
    (∀ s : BScene.BSState,
       BScene.unmountCleanup (BScene.unmountCleanup s) = BScene.unmountCleanup s) := by
  refine ⟨?_, rfl, fun s => rfl⟩
  intro s
  obtain ⟨ea, sa, ca, rl, rlr, il, el, hm, mm⟩ := s
  cases ea <;> cases sa <;> simp [Part2.disposeBabylon]

/-- Claim C8: a load or clear requested before initialisation completed
performs no geometry operation.  In `part_001`, `loadModelIntoViewer` on a
not-ready viewer only sets the not-ready error message and issues no viewer
call, and `clearModel` returns with the state untouched and no viewer call;
in `BabylonScene.vue`, `handleFileImport` with a null scene returns the
state unchanged; in `part_002`, `handleFileSelected` with a null scene
returns the state unchanged. -/
theorem not_ready_requests_do_nothing :
    (∀ (s : Part1.GVState) (out : Part1.LoadCallOutcome),
       s.isViewerReady = false ∨ s.viewerInstance = false →
       Part1.loadModelIntoViewer s out =
         ({ s with loadError := some "Viewer not ready. Cannot load model." }, [])) ∧
    (∀ (s : Part1.GVState) (out : Part1.ClearOutcome),
       s.isViewerReady = false ∨ s.viewerInstance = false →
       Part1.clearModel s out = (s, [])) ∧
    (∀ (s : BScene.BSState) (fc : Bool) (n : String) (out : BScene.FileReadOutcome),
       s.sceneInit = false → BScene.handleFileImport s fc n out = s) ∧
    (∀ (s : Part2.BVState) (fc : Bool) (out : Part2.ReadOutcome),
       s.sceneAlive = false → Part2.handleFileSelected s fc out = s) := by
  refine ⟨?_, ?_, ?_, ?_⟩
  · rintro s out (h | h) <;> simp [Part1.loadModelIntoViewer, h]
  · rintro s out (h | h) <;> simp [Part1.clearModel, h]
  · intro s fc n out h
    simp [BScene.handleFileImport, h]
  · intro s fc out h
    simp [Part2.handleFileSelected, h]

/-- Witness for C8: a concrete not-ready `part_001` state receives the
not-ready error and no viewer call is made. -/
theorem not_ready_requests_do_nothing_witness :
    Part1.loadModelIntoViewer
      { isModelLoaded := false, isLoading := false, isViewerReady := false
        viewerInstance := false, loadError := none } .resolved =
      ({ isModelLoaded := false, isLoading := false, isViewerReady := false
         viewerInstance := false
         loadError := some "Viewer not ready. Cannot load model." }, []) :=
  not_ready_requests_do_nothing.1 _ .resolved (Or.inl rfl)

/-- Claim C10: in the standalone page, environment meshes are excluded from
model operations.  `clearModels` keeps exactly the meshes named precisely
"ground" or whose name contains "skybox" (each kept mesh is an original
scene mesh, unchanged), and every other mesh is disposed and gone; and
`calculateBoundingInfo` ignores any mesh that is invisible or whose name
contains "ground" or "skybox": deleting such a mesh from the input does not
change the result. -/
theorem environment_meshes_excluded :
    (∀ meshes : List Part0.MeshInfo,
       Part0.clearModels meshes =
         meshes.filter fun m => (m.name == "ground") || strContains m.name "skybox") ∧
    (∀ (meshes : List Part0.MeshInfo) (m : Part0.MeshInfo),
       m ∈ Part0.clearModels meshes → m ∈ meshes) ∧
    (∀ (meshes : List Part0.MeshInfo) (m : Part0.MeshInfo),
       m.name ≠ "ground" → strContains m.name "skybox" = false →
       m ∉ Part0.clearModels meshes) ∧
    (∀ (l1 l2 : List Part0.MeshInfo) (m : Part0.MeshInfo),
       m.isVisible = false ∨ strContains m.name "ground" = true ∨
         strContains m.name "skybox" = true →
       Part0.calculateBoundingInfo (l1 ++ m :: l2) =
         Part0.calculateBoundingInfo (l1 ++ l2)) := by
  refine ⟨?_, ?_, ?_, ?_⟩
  · intro meshes
    apply List.filter_congr
    intro m _
    cases h1 : (m.name == "ground") <;> cases h2 : strContains m.name "skybox" <;>
      simp [bne, h1, h2]
  · intro meshes m hm
    exact (List.mem_filter.mp hm).1
  · intro meshes m h1 h2 hm
    have h3 := (List.mem_filter.mp hm).2
    simp [bne, h2] at h3
    exact h1 h3
  · intro l1 l2 m h
    have hnc : Part0.meshContributes m = false := by
      unfold Part0.meshContributes
      rcases h with h | h | h <;> simp [h]
    have hskip : ∀ acc, Part0.bbStep acc m = acc := by
      intro acc
      simp [Part0.bbStep, hnc]
    unfold Part0.calculateBoundingInfo
    rw [List.foldl_append, List.foldl_append, List.foldl_cons, hskip]

/-- Witness for C10: on a two-mesh scene, `clearModels` keeps exactly the
ground mesh, and an invisible mesh does not affect the bounding result. -/
theorem environment_meshes_excluded_witness :
    Part0.clearModels
      [{ name := "ground", isVisible := true, hasBoundingInfo := true
         minW := ⟨0, 0, 0⟩, maxW := ⟨1, 1, 1⟩ },
       { name := "torso", isVisible := true, hasBoundingInfo := true
         minW := ⟨0, 0, 0⟩, maxW := ⟨1, 1, 1⟩ }] =
      [{ name := "ground", isVisible := true, hasBoundingInfo := true
         minW := ⟨0, 0, 0⟩, maxW := ⟨1, 1, 1⟩ }] ∧
    Part0.calculateBoundingInfo
      [{ name := "hidden", isVisible := false, hasBoundingInfo := true
         minW := ⟨9, 9, 9⟩, maxW := ⟨9, 9, 9⟩ }] =
      Part0.calculateBoundingInfo [] := by
  constructor
  · rw [environment_meshes_excluded.1]
    decide
  · exact environment_meshes_excluded.2.2.2 [] [] _ (Or.inl rfl)

/-- Spec-side characterisation of the union bounding box: `mn` is the
greatest componentwise lower bound of the boxes' minimum corners. -/
def isGreatestLower (boxes : List (Vec3 × Vec3)) (mn : Vec3) : Prop :=
  (∀ b ∈ boxes, vle mn b.1) ∧ ∀ w, (∀ b ∈ boxes, vle w b.1) → vle w mn

/-- Spec-side characterisation of the union bounding box: `mx` is the least
componentwise upper bound of the boxes' maximum corners. -/
def isLeastUpper (boxes : List (Vec3 × Vec3)) (mx : Vec3) : Prop :=
  (∀ b ∈ boxes, vle b.2 mx) ∧ ∀ w, (∀ b ∈ boxes, vle b.2 w) → vle mx w

/-- The world bounding boxes of the meshes that `calculateBoundingInfo`
takes into account. -/
def meshBoxes (meshes : List Part0.MeshInfo) : List (Vec3 × Vec3) :=
  (meshes.filter Part0.meshContributes).map fun m => (m.minW, m.maxW)

lemma fold_glb_cons (b0 : Vec3 × Vec3) (rest : List (Vec3 × Vec3)) :
    isGreatestLower (b0 :: rest)
      ⟨rest.foldl (fun q b => min q b.1.x) b0.1.x,
       rest.foldl (fun q b => min q b.1.y) b0.1.y,
       rest.foldl (fun q b => min q b.1.z) b0.1.z⟩ := by
  unfold isGreatestLower vle
  constructor
  · intro b hb
    rcases List.mem_cons.mp hb with rfl | hb
    · exact ⟨foldl_min_le_init _ _ _, foldl_min_le_init _ _ _, foldl_min_le_init _ _ _⟩
    · exact ⟨foldl_min_le_mem _ _ _ hb, foldl_min_le_mem _ _ _ hb,
             foldl_min_le_mem _ _ _ hb⟩
  · intro w hw
    obtain ⟨h1, h2, h3⟩ := hw b0 (List.mem_cons_self _ _)
    exact ⟨le_foldl_min _ _ _ _ h1 fun b hb => (hw b (List.mem_cons_of_mem _ hb)).1,
           le_foldl_min _ _ _ _ h2 fun b hb => (hw b (List.mem_cons_of_mem _ hb)).2.1,
           le_foldl_min _ _ _ _ h3 fun b hb => (hw b (List.mem_cons_of_mem _ hb)).2.2⟩

lemma fold_lub_cons (b0 : Vec3 × Vec3) (rest : List (Vec3 × Vec3)) :
    isLeastUpper (b0 :: rest)
      ⟨rest.foldl (fun q b => max q b.2.x) b0.2.x,
       rest.foldl (fun q b => max q b.2.y) b0.2.y,
       rest.foldl (fun q b => max q b.2.z) b0.2.z⟩ := by
  unfold isLeastUpper vle
  constructor
  · intro b hb
    rcases List.mem_cons.mp hb with rfl | hb
    · exact ⟨init_le_foldl_max _ _ _, init_le_foldl_max _ _ _, init_le_foldl_max _ _ _⟩
    · exact ⟨mem_le_foldl_max _ _ _ hb, mem_le_foldl_max _ _ _ hb,
             mem_le_foldl_max _ _ _ hb⟩
  · intro w hw
    obtain ⟨h1, h2, h3⟩ := hw b0 (List.mem_cons_self _ _)
    exact ⟨foldl_max_le _ _ _ _ h1 fun b hb => (hw b (List.mem_cons_of_mem _ hb)).1,
           foldl_max_le _ _ _ _ h2 fun b hb => (hw b (List.mem_cons_of_mem _ hb)).2.1,
           foldl_max_le _ _ _ _ h3 fun b hb => (hw b (List.mem_cons_of_mem _ hb)).2.2⟩

/-- Claim C7: for every non-empty node sequence the framing extent is
`max - min` componentwise over the union bounding box (characterised as the
componentwise greatest lower bound of the minimum corners and the least
upper bound of the maximum corners), and the camera radius is derived from
the largest axis of that extent — in `part_002` as the max axis times the
padding multiplier 1.5 (which lies in the 1.5–2.5 range), in `part_000` as
half the max axis.  At the example input with boxes [(-1,-1,-1),(1,1,1)]
and [(0,0,0),(2,2,2)] the union min is (-1,-1,-1), the max (2,2,2), the
centre (1/2,1/2,1/2) and the max-axis extent 3. -/
theorem framing_extent_and_radius :
    (∀ (bounds : List (Vec3 × Vec3)) (fr : Part2.FrameResult),
       Part2.frameMeshes bounds = some fr →
         isGreatestLower bounds fr.minV ∧ isLeastUpper bounds fr.maxV ∧
         fr.center = vcenter fr.minV fr.maxV ∧
         fr.extents = vsub fr.maxV fr.minV ∧
         fr.size = max fr.extents.x (max fr.extents.y fr.extents.z) ∧
         fr.radius = fr.size * (3 / 2) ∧
         (0 ≤ fr.size → fr.size * (3 / 2) ≤ fr.radius ∧ fr.radius ≤ fr.size * (5 / 2))) ∧
    (∀ meshes : List Part0.MeshInfo, meshBoxes meshes ≠ [] →
       ∃ mn mx, isGreatestLower (meshBoxes meshes) mn ∧
         isLeastUpper (meshBoxes meshes) mx ∧
         Part0.calculateBoundingInfo meshes =
           { center := vcenter mn mx
             radius := max |mx.x - mn.x| (max |mx.y - mn.y| |mx.z - mn.z|) / 2 }) ∧
    Part2.frameMeshes [(⟨-1, -1, -1⟩, ⟨1, 1, 1⟩), (⟨0, 0, 0⟩, ⟨2, 2, 2⟩)] =
      some { minV := ⟨-1, -1, -1⟩, maxV := ⟨2, 2, 2⟩, center := ⟨1/2, 1/2, 1/2⟩
             extents := ⟨3, 3, 3⟩, size := 3, radius := 9/2
             lowerRadiusLimit := 3/10, upperRadiusLimit := 45/2 } := by
  refine ⟨?_, ?_, ?_⟩
  · intro bounds fr h
    cases bounds with
    | nil => simp [Part2.frameMeshes] at h
    | cons b0 rest =>
        simp only [Part2.frameMeshes, vfold_eq, Option.some.injEq] at h
        subst h
        exact ⟨fold_glb_cons b0 rest, fold_lub_cons b0 rest, rfl, rfl, rfl, rfl,
          fun h0 => ⟨le_refl _, mul_le_mul_of_nonneg_left (by norm_num) h0⟩⟩
  · intro meshes hne
    cases hl : meshes.filter Part0.meshContributes with
    | nil => exact absurd (by simp [meshBoxes, hl]) hne
    | cons v rest =>
        have hbx : meshBoxes meshes =
            (v.minW, v.maxW) :: rest.map fun m => (m.minW, m.maxW) := by
          simp [meshBoxes, hl]
        refine ⟨⟨rest.foldl (fun q m => min q m.minW.x) v.minW.x,
                 rest.foldl (fun q m => min q m.minW.y) v.minW.y,
                 rest.foldl (fun q m => min q m.minW.z) v.minW.z⟩,
                ⟨rest.foldl (fun q m => max q m.maxW.x) v.maxW.x,
                 rest.foldl (fun q m => max q m.maxW.y) v.maxW.y,
                 rest.foldl (fun q m => max q m.maxW.z) v.maxW.z⟩, ?_, ?_, ?_⟩
        · rw [hbx]
          have h2 := fold_glb_cons (v.minW, v.maxW) (rest.map fun m => (m.minW, m.maxW))
          simp only [List.foldl_map] at h2
          exact h2
        · rw [hbx]
          have h2 := fold_lub_cons (v.minW, v.maxW) (rest.map fun m => (m.minW, m.maxW))
          simp only [List.foldl_map] at h2
          exact h2
        · rw [Part0.calculateBoundingInfo_of_valid meshes v rest hl]
          rfl
  · have h1 : min (-1 : ℚ) 0 = -1 := by norm_num
    have h2 : max (1 : ℚ) 2 = 2 := by norm_num
    simp only [Part2.frameMeshes, List.foldl_cons, List.foldl_nil, vmin, vmax,
      vcenter, vsub, h1, h2]
    norm_num [max_def]

/-- Witness for C7: the part_000 branch applied to a single visible torso
mesh with bounds [(-1,-1,-1),(3,1,1)]. -/
theorem framing_extent_and_radius_witness :
    ∃ mn mx,
      isGreatestLower (meshBoxes
        [{ name := "torso", isVisible := true, hasBoundingInfo := true
           minW := ⟨-1, -1, -1⟩, maxW := ⟨3, 1, 1⟩ }]) mn ∧
      isLeastUpper (meshBoxes
        [{ name := "torso", isVisible := true, hasBoundingInfo := true
           minW := ⟨-1, -1, -1⟩, maxW := ⟨3, 1, 1⟩ }]) mx ∧
      Part0.calculateBoundingInfo
        [{ name := "torso", isVisible := true, hasBoundingInfo := true
           minW := ⟨-1, -1, -1⟩, maxW := ⟨3, 1, 1⟩ }] =
        { center := vcenter mn mx
          radius := max |mx.x - mn.x| (max |mx.y - mn.y| |mx.z - mn.z|) / 2 } :=
  framing_extent_and_radius.2.1 _ (by decide)

/-- Claim C1 (failing evaluation): the bounding fold of
`BabylonScene.vue`'s `handleFileImport` starts its running maximum at
`Number.MIN_VALUE` — the smallest *positive* double, not the most negative
one — so for a model lying entirely in the negative octant (a single mesh
with world bounds min = (-2,-2,-2), max = (-1,-1,-1)) the computed centre
is ((-2 + 2^(-1074))/2, …), which differs from the midpoint
(-3/2, -3/2, -3/2) of the union box that the claim prescribes and that the
`part_000` and `part_002` variants compute. -/
theorem bscene_center_not_midpoint :
    BScene.importCenter [(⟨-2, -2, -2⟩, ⟨-1, -1, -1⟩)] ≠ ⟨-3/2, -3/2, -3/2⟩ := by
  have hmin : min BScene.jsMaxValue (-2 : ℚ) = -2 := by
    apply min_eq_right
    norm_num [BScene.jsMaxValue]
  have hmax : max BScene.jsMinValue (-1 : ℚ) = BScene.jsMinValue := by
    apply max_eq_left
    norm_num [BScene.jsMinValue]
  simp only [BScene.importCenter, BScene.unionBounds, List.foldl_cons, List.foldl_nil,
    vmin, vmax, vcenter, hmin, hmax]
  intro hEq
  have hx := congrArg Vec3.x hEq
  simp only at hx
  norm_num [BScene.jsMinValue] at hx

/-- Claim C5: a failed decode/import leaves the has-model flag false with a
non-empty error message, and a subsequent successful load clears the error.
In `part_001`, the `modelerror` listener clears `isModelLoaded` and
`isLoading` and stores a non-empty message (given that a JS error does not
stringify to the empty string while `event.message` is also empty), and a
`modelchange` event with a source clears the error and sets the flag; in
`part_002`, a URL load through `initializeBabylon` whose import rejects
leaves `hasModel` false with a non-empty `errorLoading`, a successful one
leaves `errorLoading` cleared and `hasModel` set, and a failure of the
file-selection import — only reachable with `hasModel` false, since the template
hides the input otherwise — likewise leaves `hasModel` false with a
non-empty message. -/
theorem failed_decode_state :
    (∀ (s : Part1.GVState) (msg : String) (errStr : Option String),
       ¬(msg = "" ∧ errStr = some "") →
       (Part1.onModelError s msg errStr).isModelLoaded = false ∧
       (Part1.onModelError s msg errStr).isLoading = false ∧
       ∃ e, (Part1.onModelError s msg errStr).loadError = some e ∧ e ≠ "") ∧
    (∀ (s : Part1.GVState) (src : String),
       (Part1.onModelChange s (some src)).loadError = none ∧
       (Part1.onModelChange s (some src)).isModelLoaded = true) ∧
    (∀ (s : Part2.BVState) (m : String),
       (Part2.initializeBabylon s true (.ok (some (.importError m)))).hasModel = false ∧
       ∃ e, (Part2.initializeBabylon s true
          (.ok (some (.importError m)))).errorLoading = some e ∧ e ≠ "") ∧
    (∀ (s : Part2.BVState) (M : List Nat),
       (Part2.initializeBabylon s true (.ok (some (.importOk M)))).errorLoading = none ∧
       (Part2.initializeBabylon s true (.ok (some (.importOk M)))).hasModel = true) ∧
    (∀ (s : Part2.BVState) (m : String),
       s.hasModel = false → s.sceneAlive = true →
       (Part2.handleFileSelected s true (.importError m)).hasModel = false ∧
       ∃ e, (Part2.handleFileSelected s true
          (.importError m)).errorLoading = some e ∧ e ≠ "") := by
  refine ⟨?_, ?_, ?_, ?_, ?_⟩
  · intro s msg errStr hne
    refine ⟨rfl, rfl, ?_⟩
    by_cases hm : msg = ""
    · subst hm
      cases errStr with
      | none => exact ⟨_, rfl, by simp [Part1.onModelError, jsOr]⟩
      | some e =>
          have he : e ≠ "" := fun h => hne ⟨rfl, by rw [h]⟩
          exact ⟨e, by simp [Part1.onModelError, jsOr], he⟩
    · exact ⟨msg, by simp [Part1.onModelError, jsOr, hm], hm⟩
  · intro s src
    exact ⟨rfl, rfl⟩
  · intro s m
    refine ⟨?_, ?_⟩
    · simp [Part2.initializeBabylon, Part2.loadModel]
    · refine ⟨jsOr m "Unknown error occurred.", ?_, ?_⟩
      · simp [Part2.initializeBabylon, Part2.loadModel]
      · unfold jsOr
        split
        · simp
        · assumption
  · intro s M
    constructor <;> simp [Part2.initializeBabylon, Part2.loadModel]
  · intro s m hhm hsa
    refine ⟨?_, ?_⟩
    · simp [Part2.handleFileSelected, hsa, hhm]
    · refine ⟨jsOr m "Unknown error occurred.", ?_, ?_⟩
      · simp [Part2.handleFileSelected, hsa]
      · unfold jsOr
        split
        · simp
        · assumption

/-- Witness for C5: a concrete `modelerror` event with message "boom" on a
loaded `part_001` state clears the flag and stores the message. -/
theorem failed_decode_state_witness :
    (Part1.onModelError
      { isModelLoaded := true, isLoading := true, isViewerReady := true
        viewerInstance := true, loadError := none } "boom" none).isModelLoaded = false ∧
    ∃ e, (Part1.onModelError
      { isModelLoaded := true, isLoading := true, isViewerReady := true
        viewerInstance := true, loadError := none } "boom" none).loadError =
        some e ∧ e ≠ "" :=
  ⟨(failed_decode_state.1 _ "boom" none (by simp)).1,
   (failed_decode_state.1 _ "boom" none (by simp)).2.2⟩

/-- Claim C6: every error raised during a load is caught at the load
boundary and converted to a user-visible message with the loading flag
cleared; in this embedding each handler is a total function over all error
outcomes, which is the rendering of "no error propagates uncaught to the
host framework".  Covered boundaries: the FileReader error, null-content
and import-rejection paths of `part_002`'s `handleFileSelected`; the
blob-URL and import-rejection paths of `part_002`'s `loadModel`; the
rejection path of `part_001`'s `loadModelIntoViewer`; and the FileReader
error, null-content, synchronous-exception and import-error-callback paths
of `BabylonScene.vue`'s `handleFileImport`, whose `loadingStatus` string is
the user-visible message. -/
theorem load_errors_caught_at_boundary :
    (∀ s : Part2.BVState, s.sceneAlive = true →
       ((Part2.handleFileSelected s true .readError).isLoading = false ∧
        (Part2.handleFileSelected s true .readError).errorLoading =
          some "Error: Failed to read the file") ∧
       ((Part2.handleFileSelected s true .nullContent).isLoading = false ∧
        (Part2.handleFileSelected s true .nullContent).errorLoading =
          some "Error: Could not read file") ∧
       (∀ m, (Part2.handleFileSelected s true (.importError m)).isLoading = false ∧
         ∃ e, (Part2.handleFileSelected s true (.importError m)).errorLoading =
           some e ∧ e ≠ "")) ∧
    (∀ s : Part2.BVState, s.sceneAlive = true →
       ((Part2.loadModel s .blobUrl).isLoading = false ∧
        (Part2.loadModel s .blobUrl).errorLoading =
          some "Please use the Add Model button to load models.") ∧
       (∀ m, (Part2.loadModel s (.importError m)).isLoading = false ∧
         ∃ e, (Part2.loadModel s (.importError m)).errorLoading = some e ∧ e ≠ "")) ∧
    (∀ (s : Part1.GVState) (m : String),
       s.isViewerReady = true → s.viewerInstance = true →
       ((Part1.loadModelIntoViewer s (.rejected m)).1.isLoading = false ∧
        (Part1.loadModelIntoViewer s (.rejected m)).1.isModelLoaded = false ∧
        ∃ e, (Part1.loadModelIntoViewer s (.rejected m)).1.loadError =
          some e ∧ e ≠ "")) ∧
    (∀ (s : BScene.BSState) (n : String), s.sceneInit = true →
       ((BScene.handleFileImport s true n .readFail).loadingStatus =
          "Error: Failed to read the file") ∧
       ((BScene.handleFileImport s true n .nullContent).loadingStatus =
          "Error: Could not read file") ∧
       (∀ m, (BScene.handleFileImport s true n (.importThrew m)).loadingStatus =
          "Exception: " ++ m ∧ "Exception: " ++ m ≠ "")) ∧
    (∀ (s : BScene.BSState) (m : String) (M : List Nat) (rest : List (List Nat)),
       s.pending = M :: rest →
       (BScene.importFail s m).loadingStatus = "Error: " ++ m ∧
       "Error: " ++ m ≠ "") := by
  refine ⟨?_, ?_, ?_, ?_, ?_⟩
  · intro s hsa
    refine ⟨⟨?_, ?_⟩, ⟨?_, ?_⟩, ?_⟩ <;>
      try simp [Part2.handleFileSelected, hsa]
    intro m
    unfold jsOr
    split
    · simp
    · assumption
  · intro s hsa
    refine ⟨⟨?_, ?_⟩, ?_⟩ <;>
      try simp [Part2.loadModel, hsa]
    intro m
    unfold jsOr
    split
    · simp
    · assumption
  · intro s m hr hi
    refine ⟨?_, ?_, ?_⟩ <;>
      try simp [Part1.loadModelIntoViewer, hr, hi]
    unfold jsOr
    split
    · simp
    · assumption
  · intro s n hsi
    refine ⟨by simp [BScene.handleFileImport, hsi],
      by simp [BScene.handleFileImport, hsi], ?_⟩
    intro m
    exact ⟨by simp [BScene.handleFileImport, hsi],
      prepended_ne_empty _ m (by decide)⟩
  · intro s m M rest hp
    exact ⟨by simp [BScene.importFail, hp], prepended_ne_empty _ m (by decide)⟩

/-- Witness for C6: a concrete FileReader failure in a ready `part_002`
component clears the loading flag and stores the read-error message. -/
theorem load_errors_caught_at_boundary_witness :
    (Part2.handleFileSelected
      { engineAlive := true, sceneAlive := true, cameraAlive := true
        resizeListener := true, renderLoopRunning := true, isLoading := false
        errorLoading := none, hasModel := false, sceneModelMeshes := [] }
      true .readError).isLoading = false ∧
    (Part2.handleFileSelected
      { engineAlive := true, sceneAlive := true, cameraAlive := true
        resizeListener := true, renderLoopRunning := true, isLoading := false
        errorLoading := none, hasModel := false, sceneModelMeshes := [] }
      true .readError).errorLoading = some "Error: Failed to read the file" :=
  (load_errors_caught_at_boundary.1 _ rfl).1

/-- Claim C2 (counterexample): the claim that at every point after a load
completes at most one geometry set is attached — the new load having
disposed every node of the previous set — fails for `BabylonScene.vue`.
Its file input stays enabled during a load, so a second selection ("y",
mesh [20]) made while the first import ("x", mesh [10]) is still in flight
is processed while `loadedModel` is still empty, leaving nothing to
dispose; after both imports complete, the scene still holds the first
model's mesh 10 alongside the second model's mesh 20, while `loadedModel`
records only [20] — the state after the last completion is not "exactly
the new model's nodes". -/
theorem bscene_load_completion_keeps_stale_geometry :
    (BScene.run BScene.readyState
      [.select true "x" (.started [10]), .select true "y" (.started [20]),
       .done, .done]).sceneModelMeshes = [10, 20] ∧
    (BScene.run BScene.readyState
      [.select true "x" (.started [10]), .select true "y" (.started [20]),
       .done, .done]).loadedModel = [20] ∧
    (BScene.run BScene.readyState
      [.select true "x" (.started [10]), .select true "y" (.started [20]),
       .done, .done]).sceneModelMeshes ≠
      (BScene.run BScene.readyState
        [.select true "x" (.started [10]), .select true "y" (.started [20]),
         .done, .done]).loadedModel := by
  have h1 : (BScene.run BScene.readyState
      [.select true "x" (.started [10]), .select true "y" (.started [20]),
       .done, .done]).sceneModelMeshes = [10, 20] := rfl
  have h2 : (BScene.run BScene.readyState
      [.select true "x" (.started [10]), .select true "y" (.started [20]),
       .done, .done]).loadedModel = [20] := rfl
  refine ⟨h1, h2, ?_⟩
  rw [h1, h2]
  decide

/-- Claim C2 (amended): when loads are sequential — each load request issued
only after the previous import completed, which is the only way the claim's
premise "a previous model is attached" can hold — at most one geometry set
is attached after a load completes.  For `BabylonScene.vue`, a sequential
load (nothing pending and the scene model meshes exactly `loadedModel`)
first disposes every node of the previous set and ends with exactly the new
model's meshes attached, the invariant re-established.  For `part_002`,
every event sequence from the fresh component state preserves the
reachability invariant — in particular the scene is empty of model meshes
whenever `hasModel` is false — and a file-selection load that succeeds
(deliverable only while no model is attached, by the template guard) ends
with exactly the new meshes attached.  When a second selection overlaps an
in-flight import in `BabylonScene.vue`, whose input is never disabled, the
property fails (see the counterexample). -/
theorem single_geometry_set :
    (∀ (s : BScene.BSState) (n : String) (M : List Nat),
       BScene.SeqInv s → s.sceneInit = true →
       (BScene.sequentialLoad s n M).sceneModelMeshes = M ∧
       (BScene.sequentialLoad s n M).loadedModel = M ∧
       BScene.SeqInv (BScene.sequentialLoad s n M)) ∧
    (∀ tr : List Part2.BVEvent, Part2.Inv (Part2.run Part2.initialState tr)) ∧
    (∀ (s : Part2.BVState) (M : List Nat),
       Part2.Inv s → s.hasModel = false → s.isLoading = false → s.sceneAlive = true →
       (Part2.step s (.fileSelected true (.importOk M))).sceneModelMeshes = M ∧
       (Part2.step s (.fileSelected true (.importOk M))).hasModel = true) := by
  refine ⟨?_, ?_, ?_⟩
  · intro s n M h hsi
    exact BScene.sequentialLoad_exact s n M h hsi
  · intro tr
    exact Part2.inv_run _ tr Part2.inv_initialState
  · intro s M h hhm hil hsa
    exact Part2.fileSelected_importOk s M h hhm hil hsa

/-- Witness for C2: from the ready `BabylonScene.vue` state, a sequential
load of two meshes ends with exactly those meshes attached, and the fresh
`part_002` component state satisfies the invariant after a mount event. -/
theorem single_geometry_set_witness :
    (BScene.sequentialLoad BScene.readyState "duck" [5, 6]).sceneModelMeshes = [5, 6] ∧
    Part2.Inv (Part2.run Part2.initialState [.mountOrUrlChange true (.ok none)]) :=
  ⟨(single_geometry_set.1 BScene.readyState "duck" [5, 6] ⟨rfl, rfl⟩ rfl).1,
   single_geometry_set.2.1 [.mountOrUrlChange true (.ok none)]⟩

/-- Claim C4 (counterexample): in `BabylonScene.vue` the file input is not
disabled while a load is in flight and `handleFileImport` has no re-entry
guard, so selecting a second file before the first import completes is
processed: after the two selections two imports are in flight, and after
both complete the meshes of the first model ([1,2]) are still attached
alongside the second model's ([3,4]) — two geometry sets at once, with
`loadedModel` tracking only the second. -/
theorem bscene_concurrent_load_two_sets :
    (BScene.run BScene.readyState
      [.select true "a" (.started [1, 2]),
       .select true "b" (.started [3, 4])]).pending = [[1, 2], [3, 4]] ∧
    (BScene.run BScene.readyState
      [.select true "a" (.started [1, 2]),
       .select true "b" (.started [3, 4]), .done, .done]).sceneModelMeshes =
      [1, 2, 3, 4] ∧
    (BScene.run BScene.readyState
      [.select true "a" (.started [1, 2]),
       .select true "b" (.started [3, 4]), .done, .done]).loadedModel = [3, 4] := by
  refine ⟨?_, ?_, ?_⟩ <;> rfl

/-- Claim C4 (amended): in the `part_001` variant the file input is disabled
whenever a load is in flight (and initiating a load does set the in-flight
flag, so the trigger is disabled from initiation onward), and in the
`part_002` variant the Add-Model overlay containing the file input is not
rendered while loading, so a file-selection event arriving while a load is
in flight leaves the state unchanged; `BabylonScene.vue` has no such guard,
and a second in-flight load there can leave two geometry sets attached (see
the counterexample). -/
theorem gated_variants_reject_reentry :
    (∀ s : Part1.GVState, s.isLoading = true → Part1.fileInputDisabled s = true) ∧
    (∀ s : Part1.GVState, s.isViewerReady = true → s.viewerInstance = true →
       (Part1.loadModelIntoViewer s .resolved).1.isLoading = true ∧
       Part1.fileInputDisabled (Part1.loadModelIntoViewer s .resolved).1 = true) ∧
    (∀ s : Part2.BVState, s.isLoading = true → Part2.addOverlayVisible s = false) ∧
    (∀ (s : Part2.BVState) (fc : Bool) (out : Part2.ReadOutcome),
       s.isLoading = true → Part2.step s (.fileSelected fc out) = s) := by
  refine ⟨?_, ?_, ?_, ?_⟩
  · intro s h
    simp [Part1.fileInputDisabled, h]
  · intro s hr hi
    refine ⟨?_, ?_⟩ <;> simp [Part1.loadModelIntoViewer, Part1.fileInputDisabled, hr, hi]
  · intro s h
    simp [Part2.addOverlayVisible, h]
  · intro s fc out h
    simp [Part2.step, h]

/-- Witness for C4 (amended): a concrete in-flight `part_002` state ignores
a file-selection event, and a concrete in-flight `part_001` state has its
input disabled. -/
theorem gated_variants_reject_reentry_witness :
    Part2.step
      { engineAlive := true, sceneAlive := true, cameraAlive := true
        resizeListener := true, renderLoopRunning := true, isLoading := true
        errorLoading := none, hasModel := false, sceneModelMeshes := [] }
      (.fileSelected true (.importOk [9])) =
      { engineAlive := true, sceneAlive := true, cameraAlive := true
        resizeListener := true, renderLoopRunning := true, isLoading := true
        errorLoading := none, hasModel := false, sceneModelMeshes := [] } ∧
    Part1.fileInputDisabled
      { isModelLoaded := false, isLoading := true, isViewerReady := true
        viewerInstance := true, loadError := none } = true :=
  ⟨gated_variants_reject_reentry.2.2.2 _ true (.importOk [9]) rfl,
   gated_variants_reject_reentry.1 _ rfl⟩
